import Mathlib

/-!
Verification of the unread-message / conversation-state subsystem of the
`alx-backend-python` messaging application.

The relational state (tables `Conversation`, `ConversationParticipant`,
`Message`, `MessageReadReceipt`, `Notification`, `MessageHistory`) is embedded
as lists of rows; each API operation from `chats/views.py`,
`chats/serializers.py`, `chats/permissions.py`, `messaging/managers.py` and
`messaging/signals.py` is embedded as a function on that state.  Identifiers
(users, conversations, messages) and timestamps are natural numbers.
-/

namespace Messaging

/-- A value stored in a `sender` / `receiver` / `edited_by` column of the
event-log tables.  The signal handlers in `messaging/signals.py` pass the
`User` *model class* itself (`Notification.objects.create(sender=User,
receiver=User)`, `edited_by=User`) instead of a user row, so the embedded
reference type distinguishes a concrete user row from the class object. -/
inductive Ref where
  | user (id : Nat)
  | userClass
deriving DecidableEq, Repr

/-- A `ConversationParticipant` row (`messaging/models.py`): membership of a
user in a conversation, with `joined_at` and optional `left_at`.  The model
declares `unique_together = ['conversation', 'user']`. -/
structure Participant where
  conv : Nat
  user : Nat
  joinedAt : Nat
  leftAt : Option Nat
deriving DecidableEq, Repr

/-- A `Message` row (`messaging/models.py`): sender, receiver, owning
conversation, body, sent timestamp, optional edited timestamp.  The field
`unread` is the stored boolean read flag.  Modelled from the spec: the spec
states the source keeps "a boolean `unread`/`is_read` field maintained
independently of ReadReceipt rows" on Message; the `models.py` in the tree
names it `is_read` while `managers.py` queries it as `unread` — here it is the
single stored flag, true while the stored flag says the message is unread. -/
structure Message where
  id : Nat
  sender : Nat
  receiver : Nat
  conv : Nat
  content : String
  sentAt : Nat
  editedAt : Option Nat
  unread : Bool
deriving DecidableEq, Repr

/-- A `MessageReadReceipt` row (`messaging/models.py`): `unique_together =
['message', 'user']`, with a `read_at` timestamp defaulting to now. -/
structure Receipt where
  msg : Nat
  user : Nat
  readAt : Nat
deriving DecidableEq, Repr

/-- A `Notification` row.  Modelled from the spec: the `Notification` model is
imported by `messaging/signals.py` but its declaration is not in the tree; per
the spec it "references the message's sender and intended recipient(s)", so it
carries a sender reference and a receiver reference (the columns the handler
`create_notification` actually fills). -/
structure Notification where
  sender : Ref
  receiver : Ref
deriving DecidableEq, Repr

/-- A `MessageHistory` row.  Modelled from the spec: the `MessageHistory`
model is imported by `messaging/signals.py` but its declaration is not in the
tree; per the spec it is an append-only snapshot "recording the action kind
(created/edited), the message content at that instant, and the acting user".
Its fields are the keyword arguments the handler `create_message_history`
passes to `MessageHistory.objects.create`. -/
structure MessageHistory where
  modelName : String
  objectId : Nat
  action : String
  currentMessage : String
  editedBy : Ref
deriving DecidableEq, Repr

/-- The relational database state: one list of rows per table. -/
structure DB where
  conversations : List Nat
  participants : List Participant
  messages : List Message
  receipts : List Receipt
  notifications : List Notification
  histories : List MessageHistory
deriving DecidableEq, Repr

/-- Failure outcomes surfaced by the embedded operations: HTTP 403 for the
participant / sender checks, 404 from `get_object`, 400 from `leave` and
`add_participant`, and the database `IntegrityError` raised when an insert
violates a uniqueness constraint. -/
inductive Err where
  | notAParticipant
  | forbidden
  | notFound
  | alreadyParticipant
  | uniqueViolation
deriving DecidableEq, Repr

/-- Run an operation's result against the pre-state: a failed operation
performs no writes, so the pre-state is kept. -/
def applyResult (s : DB) : Except Err DB → DB
  | .ok s2 => s2
  | .error _ => s

/-- Embeds `conversation.participants.filter(user_id=...).exists()` /
`Conversation.objects.filter(..., participants=user).exists()`: the
many-to-many through `ConversationParticipant` matches every membership row,
open or closed — `left_at` is not consulted. -/
def hasMembershipRow (s : DB) (c u : Nat) : Bool :=
  s.participants.any fun p => p.conv == c && p.user == u

/-- Embeds `ConversationParticipant.objects.filter(conversation=..., user=...,
left_at__isnull=True).exists()`: an open membership row. -/
def hasOpenMembership (s : DB) (c u : Nat) : Bool :=
  s.participants.any fun p => p.conv == c && p.user == u && p.leftAt.isNone

/-- Embeds `MessageReadReceipt.objects.filter(message=..., user=...).exists()`. -/
def hasReceipt (s : DB) (m u : Nat) : Bool :=
  s.receipts.any fun r => r.msg == m && r.user == u

/-- Number of `MessageReadReceipt` rows for a (message, user) pair. -/
def countReceipts (s : DB) (m u : Nat) : Nat :=
  (s.receipts.filter fun r => r.msg == m && r.user == u).length

/-- Embeds `create_notification` (`messaging/signals.py` lines 5-10): fired on
message creation; builds `Notification.objects.create(sender=User,
receiver=User)` — both columns receive the `User` class, the `instance`
argument is never consulted. -/
def create_notification (_instance : Message) : Notification :=
  { sender := Ref.userClass, receiver := Ref.userClass }

/-- Embeds `create_message_history` (`messaging/signals.py` lines 12-23): builds the
`MessageHistory` row from the message being saved.  On the creation path
(`created = true`) the action is `"created"`; `edited_by` receives the `User`
class.  (The handler's edit path reads `instance.edited`, a field `Message`
does not define, so only the creation path denotes a row.) -/
def create_message_history (msgInstance : Message) (created : Bool) : MessageHistory :=
  { modelName := "MessageHistory"
    objectId := msgInstance.id
    action := if created then "created" else "edited"
    currentMessage := msgInstance.content
    editedBy := Ref.userClass }

/-- Embeds `MessageViewSet.create` (`chats/views.py` lines 287-312) followed by the
message-save signal handlers: the participant gate is
`Conversation.objects.filter(conversation_id=..., participants=request.user)
.exists()` — any membership row, open or closed, passes.  On success the
message row is inserted with `sent_at = now` and the two signal handlers
append one `Notification` and one `MessageHistory` row. -/
def sendMessage (s : DB) (c sender receiver msgId t : Nat) (body : String) :
    Except Err DB :=
  if s.conversations.contains c && hasMembershipRow s c sender then
    let m : Message :=
      { id := msgId, sender := sender, receiver := receiver, conv := c
        content := body, sentAt := t, editedAt := none, unread := true }
    .ok { s with
          messages := s.messages ++ [m]
          notifications := s.notifications ++ [create_notification m]
          histories := s.histories ++ [create_message_history m true] }
  else
    .error .notAParticipant

/-- Embeds `IsMessageSender.has_object_permission` (`chats/permissions.py` lines
22-33): returns `True` whenever the request method is `GET`, `PUT`, `PATCH`,
`HEAD` or `OPTIONS`; only for the remaining methods (`DELETE`, `POST`) does it
compare `obj.sender == request.user`. -/
def isMessageSenderPermission (method : String) (msgSender requester : Nat) : Bool :=
  if ["GET", "PUT", "PATCH", "HEAD", "OPTIONS"].contains method then
    true
  else
    msgSender == requester

/-- Embeds `MessageViewSet.get_queryset` scope for a given message id: the queryset
is `Message.objects.filter(conversation__in=user_conversations)` where
`user_conversations = Conversation.objects.filter(participants=request.user)`,
so a message is reachable only when the requesting user has a membership row
(open or closed) in its conversation. -/
def messageVisible (s : DB) (msgId u : Nat) : Bool :=
  s.messages.any fun m =>
    m.id == msgId && s.participants.any fun p => p.conv == m.conv && p.user == u

/-- Embeds `MessageViewSet.update` (`chats/views.py` lines 314-321): the message
is resolved by `self.get_object()` — a 404 when it sits outside the
participant-scoped queryset — and the `IsMessageSender` object permission is
checked for the `PUT` request; if it grants access, the message's body is
replaced and `edited_at` set to now, otherwise 403. -/
def editMessage (s : DB) (msgId editor : Nat) (newBody : String) (t : Nat) :
    Except Err DB :=
  if messageVisible s msgId editor then
    match s.messages.find? (fun m => m.id == msgId) with
    | none => .error .notFound
    | some m =>
      if isMessageSenderPermission "PUT" m.sender editor then
        .ok { s with messages := s.messages.map fun x =>
                if x.id == msgId then { x with content := newBody, editedAt := some t }
                else x }
      else
        .error .forbidden
  else
    .error .notFound

/-- Embeds `MessageReadReceiptCreateSerializer.create` (`chats/serializers.py` lines
288-299): `MessageReadReceipt.objects.get_or_create(message=..., user=...)` —
if a receipt for the pair exists it is returned untouched, otherwise one is
inserted with `read_at` defaulting to now. -/
def markRead (s : DB) (msgId userId t : Nat) : DB :=
  if hasReceipt s msgId userId then s
  else { s with receipts := s.receipts ++ [{ msg := msgId, user := userId, readAt := t }] }

/-- Embeds `MessageViewSet.mark_read` (`chats/views.py` lines 323-338): resolves the
message with `self.get_object()` — a 404 when the message is outside the
participant-scoped queryset — then saves a receipt through
`MessageReadReceiptCreateSerializer`. -/
def markReadAction (s : DB) (msgId u t : Nat) : Except Err DB :=
  if messageVisible s msgId u then .ok (markRead s msgId u t)
  else .error .notFound

/-- Embeds `BulkMessageReadSerializer.create` (`chats/serializers.py` lines 324-350):
`Message.objects.filter(message_id__in=message_ids)` — no user scoping — then
a receipt is collected for every matched message that does not already have
one for the requesting user, and the batch is bulk-inserted; the count of new
receipts is returned. -/
def markMultipleRead (s : DB) (ids : List Nat) (u t : Nat) : DB × Nat :=
  let msgs := s.messages.filter fun m => ids.contains m.id
  let toCreate :=
    (msgs.filter fun m => !hasReceipt s m.id u).map
      fun m => ({ msg := m.id, user := u, readAt := t } : Receipt)
  ({ s with receipts := s.receipts ++ toCreate }, toCreate.length)

/-- Embeds `conversation.messages.exclude(read_receipts__user=request.user)`
(`chats/views.py` lines 91-93): the messages of the conversation that have no
read receipt by the given user. -/
def unreadInConversation (s : DB) (c u : Nat) : List Message :=
  s.messages.filter fun m => m.conv == c && !hasReceipt s m.id u

/-- Embeds conversation resolution by `ConversationViewSet.get_object`: the
queryset is `Conversation.objects.filter(participants=self.request.user)` and
the `IsConversationParticipant` object permission checks
`obj.participants.filter(user_id=request.user.user_id).exists()` — both pass
exactly when the conversation exists and the requesting user has a membership
row (open or closed) in it. -/
def conversationVisible (s : DB) (c u : Nat) : Bool :=
  s.conversations.contains c && hasMembershipRow s c u

/-- The body of `ConversationViewSet.mark_all_read` after `get_object`
succeeds (`chats/views.py` lines 90-107): collects one
`MessageReadReceipt(message=m, user=request.user)` per unread message of the
conversation, bulk-inserts the batch, and reports its size. -/
def markAllReadBody (s : DB) (c u t : Nat) : DB × Nat :=
  let receiptsToCreate :=
    (unreadInConversation s c u).map fun m => ({ msg := m.id, user := u, readAt := t } : Receipt)
  ({ s with receipts := s.receipts ++ receiptsToCreate }, receiptsToCreate.length)

/-- Embeds `ConversationViewSet.mark_all_read` (`chats/views.py` lines 85-107)
together with its `IsConversationParticipant` permission and the
participant-scoped `conversation = self.get_object()` of line 88: when the
requesting user has no membership row in the conversation the endpoint
refuses (404) and writes nothing; otherwise the unread set is receipted and
counted. -/
def markAllRead (s : DB) (c u t : Nat) : Except Err (DB × Nat) :=
  if conversationVisible s c u then .ok (markAllReadBody s c u t)
  else .error .notFound

/-- The unread count of `ConversationViewSet.stats` (`chats/views.py` lines
126-128): `Message.objects.filter(conversation__in=user_conversations)
.exclude(read_receipts__user=user).count()` — messages of conversations where
the user has a membership row, minus those the user holds a receipt for. -/
def statsUnreadCount (s : DB) (u : Nat) : Nat :=
  (s.messages.filter fun m =>
    s.conversations.contains m.conv
      && (s.participants.any fun p => p.conv == m.conv && p.user == u)
      && !hasReceipt s m.id u).length

/-- Embeds `UnreadMessagesManager.get_unread_count` (`messaging/managers.py` lines
18-23): `Message.objects.filter(receiver=self.user, unread=True).count()` —
the count is taken from the stored boolean flag, never from receipt rows. -/
def managerUnreadCount (s : DB) (u : Nat) : Nat :=
  (s.messages.filter fun m => m.receiver == u && m.unread).length

/-- Embeds `ConversationViewSet.leave` (`chats/views.py` lines 146-167): fetch the
open membership row of the requesting user; if none exists answer 400,
otherwise set its `left_at = now` (the row is kept). -/
def closeRow (c u t : Nat) (p : Participant) : Participant :=
  if p.conv == c && p.user == u && p.leftAt.isNone then { p with leftAt := some t } else p

/-- See `closeRow`; the whole `leave` action. -/
def leave (s : DB) (c u t : Nat) : Except Err DB :=
  if hasOpenMembership s c u then
    .ok { s with participants := s.participants.map (closeRow c u t) }
  else
    .error .notAParticipant

/-- A raw `ConversationParticipant.objects.create(...)`: the storage layer
enforces `unique_together = ['conversation', 'user']` (`messaging/models.py`
lines 124-129), so inserting a second row for a pair that already has one —
open or closed — raises `IntegrityError`. -/
def insertParticipantRow (s : DB) (c u t : Nat) : Except Err DB :=
  if hasMembershipRow s c u then
    .error .uniqueViolation
  else
    .ok { s with participants :=
            ({ conv := c, user := u, joinedAt := t, leftAt := none } : Participant)
              :: s.participants }

/-- Embeds `ConversationViewSet.add_participant` (`chats/views.py` lines 192-210),
after its permission gate: answer 400 if an *open* membership row exists,
otherwise perform the raw insert (which the uniqueness constraint may still
reject). -/
def addParticipant (s : DB) (c u t : Nat) : Except Err DB :=
  if hasOpenMembership s c u then
    .error .alreadyParticipant
  else
    insertParticipantRow s c u t

/-- Embeds `clean_user_resources` (`messaging/signals.py` lines 65-99), the
user-deletion cascade, step by step in source order: delete messages sent by
the user, messages received by the user, notifications received then sent by
the user, the user's read receipts; collect the conversations of the user's
membership rows while deleting those rows; delete each collected conversation
whose `participants.exists()` is now false (any remaining row, open or
closed, keeps it alive); finally delete the user's history rows. -/
def cleanUserResources (s : DB) (u : Nat) : DB :=
  let messages1 := s.messages.filter fun m => !(m.sender == u)
  let messages2 := messages1.filter fun m => !(m.receiver == u)
  let notifications1 := s.notifications.filter fun n => !(n.receiver == Ref.user u)
  let notifications2 := notifications1.filter fun n => !(n.sender == Ref.user u)
  let receipts2 := s.receipts.filter fun r => !(r.user == u)
  let convsToCheck := (s.participants.filter fun p => p.user == u).map Participant.conv
  let participants2 := s.participants.filter fun p => !(p.user == u)
  let conversations2 := s.conversations.filter fun c =>
    !(convsToCheck.contains c && !(participants2.any fun p => p.conv == c))
  let histories2 := s.histories.filter fun h => !(h.editedBy == Ref.user u)
  { conversations := conversations2
    participants := participants2
    messages := messages2
    receipts := receipts2
    notifications := notifications2
    histories := histories2 }


/-! ### Concrete states used by the claim theorems -/

/-- A state with one conversation (id 1) between users 1 and 2, one message
(id 10) from user 1 to user 2 whose stored flag still says unread, and no
receipts. -/
def c1State : DB :=
  { conversations := [1]
    participants := [{ conv := 1, user := 1, joinedAt := 0, leftAt := none },
                     { conv := 1, user := 2, joinedAt := 0, leftAt := none }]
    messages := [{ id := 10, sender := 1, receiver := 2, conv := 1, content := "hi",
                   sentAt := 1, editedAt := none, unread := true }]
    receipts := []
    notifications := []
    histories := [] }

/-- **C1** — the claim that `unreadCount(user)` equals the number of messages
visible to the user with no read receipt, is derived solely from receipt
absence, and drops by one after `markRead`, fails on
`UnreadMessagesManager.get_unread_count`: that count is taken from the stored
boolean flag, which receipt creation never touches.  In `c1State` both counts
agree (1) before `markRead(10, user 2)`, but afterwards the manager count is
still 1 while the receipt-absence count of the stats endpoint is 0. -/
theorem c1_unread_count_uses_stored_flag :
    managerUnreadCount c1State 2 = 1 ∧
    statsUnreadCount c1State 2 = 1 ∧
    managerUnreadCount (markRead c1State 10 2 5) 2 = 1 ∧
    statsUnreadCount (markRead c1State 10 2 5) 2 = 0 := by
  refine ⟨rfl, rfl, rfl, rfl⟩

/-- A state with one conversation between users 1 and 2 and one message
(id 10) sent by user 1 with body `"original"`. -/
def c2State : DB :=
  { conversations := [1]
    participants := [{ conv := 1, user := 1, joinedAt := 0, leftAt := none },
                     { conv := 1, user := 2, joinedAt := 0, leftAt := none }]
    messages := [{ id := 10, sender := 1, receiver := 2, conv := 1, content := "original",
                   sentAt := 1, editedAt := none, unread := true }]
    receipts := []
    notifications := []
    histories := [] }

/-- **C2** — the claim that a non-sender's edit fails with `Forbidden` and
leaves body and `edited_at` unchanged fails on the code:
`IsMessageSender.has_object_permission` grants `PUT`/`PATCH` to every
authenticated user, so user 2's edit of user 1's message succeeds, replaces
the body and sets `edited_at`. -/
theorem c2_non_sender_edit_not_forbidden :
    isMessageSenderPermission "PUT" 1 2 = true ∧
    editMessage c2State 10 2 "hacked" 7 =
      .ok { c2State with
            messages := [{ id := 10, sender := 1, receiver := 2, conv := 1,
                           content := "hacked", sentAt := 1, editedAt := some 7,
                           unread := true }] } := by
  refine ⟨rfl, rfl⟩

/-- A state where user 2 has a *closed* membership (left at time 5) in
conversation 1 while user 3 is an open participant. -/
def c3State : DB :=
  { conversations := [1]
    participants := [{ conv := 1, user := 2, joinedAt := 0, leftAt := some 5 },
                     { conv := 1, user := 3, joinedAt := 0, leftAt := none }]
    messages := []
    receipts := []
    notifications := []
    histories := [] }

/-- **C3 counterexample** — the claim that a sender with no *open* membership
cannot send fails on the code: user 2 left conversation 1 (no open
membership), yet `sendMessage` succeeds and creates the message, because the
participant gate matches any membership row regardless of `left_at`. -/
theorem c3_closed_membership_still_sends :
    hasOpenMembership c3State 1 2 = false ∧
    (applyResult c3State (sendMessage c3State 1 2 3 20 9 "hello")).messages =
      [{ id := 20, sender := 2, receiver := 3, conv := 1, content := "hello",
         sentAt := 9, editedAt := none, unread := true }] := by
  refine ⟨rfl, rfl⟩

/-- **C3 amended** — `sendMessage` fails with `NotAParticipant`, creating no
message row and appending no history row, exactly when the sender has no
membership row at all (open or closed) in the conversation. -/
theorem c3_no_membership_row_send_fails (s : DB) (c sender receiver msgId t : Nat)
    (body : String) (h : hasMembershipRow s c sender = false) :
    sendMessage s c sender receiver msgId t body = .error .notAParticipant ∧
    (applyResult s (sendMessage s c sender receiver msgId t body)).messages
      = s.messages ∧
    (applyResult s (sendMessage s c sender receiver msgId t body)).histories
      = s.histories := by
  unfold sendMessage
  rw [h]
  simp [applyResult]

/-- A state with one conversation and no participant rows at all. -/
def c3WitnessState : DB :=
  { conversations := [1], participants := [], messages := [], receipts := [],
    notifications := [], histories := [] }

/-- Witness for `c3_no_membership_row_send_fails` at a concrete state. -/
theorem c3_no_membership_row_send_fails_witness :
    sendMessage c3WitnessState 1 2 3 20 9 "hello" = .error .notAParticipant ∧
    (applyResult c3WitnessState (sendMessage c3WitnessState 1 2 3 20 9 "hello")).messages
      = c3WitnessState.messages ∧
    (applyResult c3WitnessState (sendMessage c3WitnessState 1 2 3 20 9 "hello")).histories
      = c3WitnessState.histories :=
  c3_no_membership_row_send_fails c3WitnessState 1 2 3 20 9 "hello" (by decide)

/-- A state where user 1 is the sole *open* participant of conversation 1,
and user 2 holds a closed membership row in it. -/
def c4State : DB :=
  { conversations := [1]
    participants := [{ conv := 1, user := 1, joinedAt := 0, leftAt := none },
                     { conv := 1, user := 2, joinedAt := 0, leftAt := some 4 }]
    messages := []
    receipts := []
    notifications := []
    histories := [] }

/-- **C4 counterexample** — the claim that every conversation where the
deleted user was the sole *open* participant is deleted fails on the code: in
`c4State` user 1 is the only open participant of conversation 1, yet the
cascade keeps the conversation, because the emptiness check
`conversation.participants.exists()` also counts user 2's closed row. -/
theorem c4_sole_open_participant_conversation_survives :
    ((c4State.participants.filter fun p => p.leftAt.isNone).map Participant.user) = [1] ∧
    (cleanUserResources c4State 1).conversations = [1] := by
  refine ⟨rfl, rfl⟩

/-- A state with conversation 1 held only by user 1 and conversation 2 shared
by users 1 and 2. -/
def c4WitnessState : DB :=
  { conversations := [1, 2]
    participants := [{ conv := 1, user := 1, joinedAt := 0, leftAt := none },
                     { conv := 2, user := 1, joinedAt := 0, leftAt := none },
                     { conv := 2, user := 2, joinedAt := 0, leftAt := none }]
    messages := []
    receipts := []
    notifications := []
    histories := [] }

/-- A state with two open participants of conversation 1 and no messages. -/
def c8State : DB :=
  { conversations := [1]
    participants := [{ conv := 1, user := 1, joinedAt := 0, leftAt := none },
                     { conv := 1, user := 2, joinedAt := 0, leftAt := none }]
    messages := []
    receipts := []
    notifications := []
    histories := [] }

/-- **C8** — the claim that a successful message creation produces one
`Notification` referencing the message's sender and recipient and one
`MessageHistory` recording the acting user fails on the code: exactly one row
of each is created, but `create_notification` fills both references with the
`User` model class (`sender=User, receiver=User`) and
`create_message_history` sets `edited_by=User`, none of which is the sender
(user 1) or the recipient (user 2) of the message. -/
theorem c8_signal_rows_reference_model_class :
    (applyResult c8State (sendMessage c8State 1 1 2 30 3 "hello")).notifications =
      [{ sender := Ref.userClass, receiver := Ref.userClass }] ∧
    (applyResult c8State (sendMessage c8State 1 1 2 30 3 "hello")).histories =
      [{ modelName := "MessageHistory", objectId := 30, action := "created",
         currentMessage := "hello", editedBy := Ref.userClass }] ∧
    Ref.userClass ≠ Ref.user 1 ∧ Ref.userClass ≠ Ref.user 2 := by
  refine ⟨rfl, rfl, by decide, by decide⟩

/-- A state with message 40 in conversation 1, whose only participant is
user 2; user 3 has no membership row anywhere. -/
def c10State : DB :=
  { conversations := [1]
    participants := [{ conv := 1, user := 2, joinedAt := 0, leftAt := none }]
    messages := [{ id := 40, sender := 2, receiver := 2, conv := 1, content := "m",
                   sentAt := 1, editedAt := none, unread := true }]
    receipts := []
    notifications := []
    histories := [] }

/-- **C10 counterexample** — the claim that marking any existing message read
succeeds for every authenticated user fails on the single-message path:
`MessageViewSet.mark_read` resolves the message through the
participant-scoped queryset, so user 3 (never a participant of conversation 1)
gets a 404 and no receipt is created for message 40. -/
theorem c10_single_mark_read_requires_membership :
    hasMembershipRow c10State 1 3 = false ∧
    markReadAction c10State 40 3 5 = .error .notFound ∧
    (applyResult c10State (markReadAction c10State 40 3 5)).receipts = [] := by
  refine ⟨rfl, rfl, rfl⟩


/-! ### Read-receipt lemmas (claims C6 and C7) -/

/-- Auxiliary: when no receipt exists for a pair, the receipt filter for that
pair is empty. -/
theorem filter_receipts_eq_nil_of_not_hasReceipt (s : DB) (m u : Nat)
    (h : hasReceipt s m u = false) :
    (s.receipts.filter fun r => r.msg == m && r.user == u) = [] := by
  unfold hasReceipt at h
  rw [List.any_eq_false] at h
  rw [List.filter_eq_nil_iff]
  exact h

/-- Auxiliary: a receipt present for the pair forces a positive count. -/
theorem one_le_countReceipts_of_hasReceipt (s : DB) (m u : Nat)
    (h : hasReceipt s m u = true) : 1 ≤ countReceipts s m u := by
  unfold hasReceipt at h
  obtain ⟨r, hrmem, hrp⟩ := List.any_eq_true.mp h
  unfold countReceipts
  exact List.length_pos_iff_exists_mem.mpr ⟨r, List.mem_filter.mpr ⟨hrmem, hrp⟩⟩

/-- Auxiliary: `markRead` is a no-op when the receipt already exists. -/
theorem markRead_of_hasReceipt (s : DB) (m u t : Nat)
    (h : hasReceipt s m u = true) : markRead s m u t = s := by
  unfold markRead
  simp [h]

/-- Auxiliary: `markRead` inserts one receipt when none exists. -/
theorem markRead_of_not_hasReceipt (s : DB) (m u t : Nat)
    (h : hasReceipt s m u = false) :
    markRead s m u t =
      { s with receipts := s.receipts ++ [{ msg := m, user := u, readAt := t }] } := by
  unfold markRead
  simp [h]

/-- Auxiliary: after `markRead` the pair always has a receipt. -/
theorem hasReceipt_markRead_self (s : DB) (m u t : Nat) :
    hasReceipt (markRead s m u t) m u = true := by
  cases hb : hasReceipt s m u with
  | true => rw [markRead_of_hasReceipt s m u t hb]; exact hb
  | false =>
      rw [markRead_of_not_hasReceipt s m u t hb]
      simp [hasReceipt, List.any_append]

/-- **C6** — `markRead` is idempotent: starting from a state obeying the
(message, user) uniqueness constraint, a second `markRead` on the same pair
is a no-op (so the existing receipt's `read_at` is untouched and the call
does not fail, `markRead` being total), and exactly one receipt row exists
for the pair afterwards. -/
theorem c6_markRead_idempotent (s : DB) (m u t1 t2 : Nat)
    (h : countReceipts s m u ≤ 1) :
    markRead (markRead s m u t1) m u t2 = markRead s m u t1 ∧
    countReceipts (markRead (markRead s m u t1) m u t2) m u = 1 := by
  have hid : markRead (markRead s m u t1) m u t2 = markRead s m u t1 :=
    markRead_of_hasReceipt _ m u t2 (hasReceipt_markRead_self s m u t1)
  refine ⟨hid, ?_⟩
  rw [hid]
  cases hb : hasReceipt s m u with
  | true =>
      rw [markRead_of_hasReceipt s m u t1 hb]
      exact Nat.le_antisymm h (one_le_countReceipts_of_hasReceipt s m u hb)
  | false =>
      rw [markRead_of_not_hasReceipt s m u t1 hb]
      simp [countReceipts, List.filter_append,
        filter_receipts_eq_nil_of_not_hasReceipt s m u hb]

/-- A state with one receipt already present for message 10 and user 2. -/
def c6WitnessState : DB :=
  { conversations := [1]
    participants := [{ conv := 1, user := 2, joinedAt := 0, leftAt := none }]
    messages := [{ id := 10, sender := 2, receiver := 2, conv := 1, content := "hi",
                   sentAt := 1, editedAt := none, unread := true }]
    receipts := [{ msg := 10, user := 2, readAt := 4 }]
    notifications := []
    histories := [] }

/-- Witness for `c6_markRead_idempotent` at a concrete state. -/
theorem c6_markRead_idempotent_witness :
    markRead (markRead c6WitnessState 10 2 5) 10 2 6 = markRead c6WitnessState 10 2 5 ∧
    countReceipts (markRead (markRead c6WitnessState 10 2 5) 10 2 6) 10 2 = 1 :=
  c6_markRead_idempotent c6WitnessState 10 2 5 6 (by decide)

/-- Auxiliary: the state component of the post-gate body, spelled out. -/
theorem markAllReadBody_state (s : DB) (c u t : Nat) :
    (markAllReadBody s c u t).1 =
      { s with receipts := (s.receipts ++ (unreadInConversation s c u).map
          (fun m => ({ msg := m.id, user := u, readAt := t } : Receipt))) } := rfl

/-- Auxiliary: the receipts after the post-gate body, spelled out. -/
theorem markAllReadBody_receipts (s : DB) (c u t : Nat) :
    (markAllReadBody s c u t).1.receipts =
      s.receipts ++ (unreadInConversation s c u).map
        (fun m => ({ msg := m.id, user := u, readAt := t } : Receipt)) := rfl

/-- Auxiliary: the messages table is untouched by the post-gate body. -/
theorem markAllReadBody_messages (s : DB) (c u t : Nat) :
    (markAllReadBody s c u t).1.messages = s.messages := rfl

/-- Auxiliary: the count returned by the post-gate body is the number of
unread messages of the conversation. -/
theorem markAllReadBody_count (s : DB) (c u t : Nat) :
    (markAllReadBody s c u t).2 = (unreadInConversation s c u).length := by
  simp [markAllReadBody]

/-- Auxiliary: past its participant gate, `mark_all_read` runs the body. -/
theorem markAllRead_of_visible (s : DB) (c u t : Nat)
    (hv : conversationVisible s c u = true) :
    markAllRead s c u t = .ok (markAllReadBody s c u t) := by
  unfold markAllRead
  simp [hv]

/-- Auxiliary: with nothing unread, the body writes nothing and counts
zero. -/
theorem markAllReadBody_of_no_unread (s : DB) (c u t : Nat)
    (h : unreadInConversation s c u = []) :
    markAllReadBody s c u t = (s, 0) := by
  simp only [markAllReadBody]
  rw [h]
  simp

/-- Auxiliary: after the body runs, every message of the conversation has a
receipt for the user. -/
theorem hasReceipt_markAllReadBody_of_mem (s : DB) (c u t : Nat) (m : Message)
    (hm : m ∈ s.messages) (hc : m.conv = c) :
    hasReceipt (markAllReadBody s c u t).1 m.id u = true := by
  unfold hasReceipt
  rw [markAllReadBody_receipts, List.any_append]
  cases hb : hasReceipt s m.id u with
  | true =>
      unfold hasReceipt at hb
      rw [hb, Bool.true_or]
  | false =>
      have hmem : m ∈ unreadInConversation s c u := by
        unfold unreadInConversation
        refine List.mem_filter.mpr ⟨hm, ?_⟩
        rw [Bool.and_eq_true, Bool.not_eq_true']
        exact ⟨by rw [beq_iff_eq]; exact hc, hb⟩
      have hany : ((unreadInConversation s c u).map
          (fun m2 => ({ msg := m2.id, user := u, readAt := t } : Receipt))).any
            (fun r => r.msg == m.id && r.user == u) = true := by
        refine List.any_eq_true.mpr ⟨_, List.mem_map.mpr ⟨m, hmem, rfl⟩, ?_⟩
        simp
      rw [hany, Bool.or_true]

/-- Auxiliary: a second run of the body finds no unread message left. -/
theorem unreadInConversation_markAllReadBody (s : DB) (c u t : Nat) :
    unreadInConversation (markAllReadBody s c u t).1 c u = [] := by
  unfold unreadInConversation
  rw [markAllReadBody_messages, List.filter_eq_nil_iff]
  intro m hm hp
  rw [Bool.and_eq_true] at hp
  obtain ⟨hc, hnr⟩ := hp
  rw [Bool.not_eq_true'] at hnr
  rw [hasReceipt_markAllReadBody_of_mem s c u t m hm (beq_iff_eq.mp hc)] at hnr
  exact Bool.noConfusion hnr

/-- A state whose conversation 1 has participant 2 and one message (id 50)
with no receipts; user 3 has no membership row anywhere. -/
def c7State : DB :=
  { conversations := [1]
    participants := [{ conv := 1, user := 2, joinedAt := 0, leftAt := none }]
    messages := [{ id := 50, sender := 2, receiver := 2, conv := 1, content := "m",
                   sentAt := 1, editedAt := none, unread := true }]
    receipts := []
    notifications := []
    histories := [] }

/-- **C7 counterexample** — the claim quantifies over every conversation and
user, but for user 3, who has no membership row in conversation 1, the
endpoint resolves the conversation through the participant-scoped queryset
(with the `IsConversationParticipant` permission) and refuses with 404,
creating no receipt and returning no count, although one message of the
conversation lacks a receipt for user 3. -/
theorem c7_nonparticipant_mark_all_read_refused :
    hasMembershipRow c7State 1 3 = false ∧
    (unreadInConversation c7State 1 3).length = 1 ∧
    markAllRead c7State 1 3 5 = .error .notFound := by
  refine ⟨rfl, rfl, rfl⟩

/-- **C7 amended** — for a user holding a membership row in the conversation
(any other user is refused with 404 by the participant-scoped `get_object`,
writing nothing), `mark_all_read` succeeds, creates receipts for exactly the
messages of the conversation lacking one for that user, returns the count
created, and a second consecutive call (no interleaved message creation)
succeeds, writes nothing and returns zero. -/
theorem c7_markAllRead_marks_exactly_unread (s : DB) (c u t1 t2 : Nat)
    (hv : conversationVisible s c u = true) :
    ∃ s1, markAllRead s c u t1 = .ok (s1, (unreadInConversation s c u).length) ∧
      (∀ r : Receipt, r ∈ s1.receipts ↔
          r ∈ s.receipts ∨ (r.user = u ∧ r.readAt = t1 ∧
            ∃ m2, m2 ∈ unreadInConversation s c u ∧ r.msg = m2.id)) ∧
      markAllRead s1 c u t2 = .ok (s1, 0) := by
  refine ⟨(markAllReadBody s c u t1).1, ?_, ?_, ?_⟩
  · rw [markAllRead_of_visible s c u t1 hv, ← markAllReadBody_count s c u t1]
  · intro r
    rw [markAllReadBody_receipts, List.mem_append, List.mem_map]
    constructor
    · rintro (hr | ⟨m2, hm2, rfl⟩)
      · exact Or.inl hr
      · exact Or.inr ⟨rfl, rfl, m2, hm2, rfl⟩
    · rintro (hr | ⟨hu, ht, m2, hm2, hmsg⟩)
      · exact Or.inl hr
      · refine Or.inr ⟨m2, hm2, ?_⟩
        cases r
        simp_all
  · have hvis : conversationVisible (markAllReadBody s c u t1).1 c u = true := hv
    rw [markAllRead_of_visible _ c u t2 hvis,
      markAllReadBody_of_no_unread _ c u t2 (unreadInConversation_markAllReadBody s c u t1)]

/-- Witness for `c7_markAllRead_marks_exactly_unread` at the `c7State`
scenario: user 2, a participant of conversation 1, marks all read twice. -/
theorem c7_markAllRead_marks_exactly_unread_witness :
    ∃ s1, markAllRead c7State 1 2 5 =
        .ok (s1, (unreadInConversation c7State 1 2).length) ∧
      (∀ r : Receipt, r ∈ s1.receipts ↔
          r ∈ c7State.receipts ∨ (r.user = 2 ∧ r.readAt = 5 ∧
            ∃ m2, m2 ∈ unreadInConversation c7State 1 2 ∧ r.msg = m2.id)) ∧
      markAllRead s1 1 2 6 = .ok (s1, 0) :=
  c7_markAllRead_marks_exactly_unread c7State 1 2 5 6 (by decide)


/-! ### Membership-row uniqueness (claim C9) -/

/-- Embeds the storage-layer `unique_together = ['conversation', 'user']`
constraint of `ConversationParticipant` as a predicate on the table: no two
rows share their (conversation, user) pair. -/
def pairsUnique : List Participant → Bool
  | [] => true
  | p :: rest =>
    !(rest.any fun q => q.conv == p.conv && q.user == p.user) && pairsUnique rest

/-- Auxiliary: closing a row does not change its conversation. -/
theorem closeRow_conv (c u t : Nat) (p : Participant) :
    (closeRow c u t p).conv = p.conv := by
  unfold closeRow
  split <;> rfl

/-- Auxiliary: closing a row does not change its user. -/
theorem closeRow_user (c u t : Nat) (p : Participant) :
    (closeRow c u t p).user = p.user := by
  unfold closeRow
  split <;> rfl

/-- Auxiliary: `leave` only touches `left_at`, so pair uniqueness is kept. -/
theorem pairsUnique_map_closeRow (c u t : Nat) (l : List Participant) :
    pairsUnique (l.map (closeRow c u t)) = pairsUnique l := by
  induction l with
  | nil => rfl
  | cons p rest ih =>
      simp only [List.map_cons, pairsUnique, List.any_map, Function.comp,
        closeRow_conv, closeRow_user, ih]
      have hfun : ((fun q : Participant => q.conv == p.conv && q.user == p.user)
            ∘ closeRow c u t)
          = fun q : Participant => q.conv == p.conv && q.user == p.user := by
        funext q
        simp [Function.comp, closeRow_conv, closeRow_user]
      rw [hfun]

/-- Auxiliary: an open membership row is in particular a membership row. -/
theorem hasMembershipRow_of_open (s : DB) (c u : Nat)
    (h : hasOpenMembership s c u = true) : hasMembershipRow s c u = true := by
  unfold hasOpenMembership at h
  obtain ⟨p, hp, hpp⟩ := List.any_eq_true.mp h
  rw [Bool.and_eq_true] at hpp
  unfold hasMembershipRow
  exact List.any_eq_true.mpr ⟨p, hp, hpp.1⟩

/-- **C9** — at most one `ConversationParticipant` row ever exists per
(conversation, user) pair: starting from a state obeying the uniqueness
constraint, `add_participant` and `leave` preserve it, a successful `leave`
keeps the (now closed) row, and a later `add_participant` for a pair whose
only row is closed hits the uniqueness constraint (`IntegrityError`) instead
of opening a new membership. -/
theorem c9_one_membership_row_per_pair (s : DB) (c u t : Nat)
    (hs : pairsUnique s.participants = true) :
    (∀ s2, addParticipant s c u t = .ok s2 → pairsUnique s2.participants = true) ∧
    (∀ s2, leave s c u t = .ok s2 →
        pairsUnique s2.participants = true ∧ hasMembershipRow s2 c u = true) ∧
    (hasMembershipRow s c u = true → hasOpenMembership s c u = false →
        addParticipant s c u t = .error .uniqueViolation) := by
  refine ⟨?_, ?_, ?_⟩
  · intro s2 h2
    unfold addParticipant insertParticipantRow at h2
    cases ho : hasOpenMembership s c u with
    | true => rw [ho] at h2; simp at h2
    | false =>
        rw [ho] at h2
        cases hmem : hasMembershipRow s c u with
        | true => rw [hmem] at h2; simp at h2
        | false =>
            rw [hmem] at h2
            simp only [if_neg, Bool.false_eq_true, not_false_eq_true,
              Except.ok.injEq] at h2
            rw [← h2]
            show (!(s.participants.any fun q => q.conv == c && q.user == u)
                && pairsUnique s.participants) = true
            rw [Bool.and_eq_true, Bool.not_eq_true']
            exact ⟨hmem, hs⟩
  · intro s2 h2
    unfold leave at h2
    cases ho : hasOpenMembership s c u with
    | false => rw [ho] at h2; simp at h2
    | true =>
        rw [ho] at h2
        simp only [if_pos, Except.ok.injEq] at h2
        rw [← h2]
        constructor
        · show pairsUnique (s.participants.map (closeRow c u t)) = true
          rw [pairsUnique_map_closeRow]
          exact hs
        · show (s.participants.map (closeRow c u t)).any
            (fun p => p.conv == c && p.user == u) = true
          rw [List.any_map]
          have hm := hasMembershipRow_of_open s c u ho
          unfold hasMembershipRow at hm
          obtain ⟨p, hp, hpp⟩ := List.any_eq_true.mp hm
          refine List.any_eq_true.mpr ⟨p, hp, ?_⟩
          simpa [Function.comp, closeRow_conv, closeRow_user] using hpp
  · intro hmem ho
    unfold addParticipant insertParticipantRow
    rw [ho, hmem]
    simp

/-- A state whose only membership row is user 2's closed row in
conversation 1. -/
def c9WitnessState : DB :=
  { conversations := [1]
    participants := [{ conv := 1, user := 2, joinedAt := 0, leftAt := some 3 }]
    messages := []
    receipts := []
    notifications := []
    histories := [] }

/-- Witness for `c9_one_membership_row_per_pair` at a concrete state: the
rejoin attempt of user 2 fails on the uniqueness constraint. -/
theorem c9_one_membership_row_per_pair_witness :
    addParticipant c9WitnessState 1 2 5 = .error .uniqueViolation :=
  (c9_one_membership_row_per_pair c9WitnessState 1 2 5 (by decide)).2.2
    (by decide) (by decide)

/-! ### The user-deletion cascade (claim C4) -/

/-- Auxiliary: the message table after the cascade, spelled out. -/
theorem cleanUserResources_messages (s : DB) (u : Nat) :
    (cleanUserResources s u).messages =
      (s.messages.filter fun m => !(m.sender == u)).filter
        (fun m => !(m.receiver == u)) := rfl

/-- Auxiliary: the conversation table after the cascade, spelled out. -/
theorem cleanUserResources_conversations (s : DB) (u : Nat) :
    (cleanUserResources s u).conversations =
      s.conversations.filter fun c =>
        !(((s.participants.filter fun p => p.user == u).map Participant.conv).contains c
            && !((s.participants.filter fun p => !(p.user == u)).any
                  fun p => p.conv == c)) := rfl

/-- **C4 amended** — after the cascade for user `u`: no message sent (or
received) by `u` remains; a conversation keeping any membership row of
another user — open or closed — survives; and a conversation in which `u` had
a row and every row was `u`'s is deleted. -/
theorem c4_cascade_conversation_rule (s : DB) (u : Nat) :
    (∀ m, m ∈ (cleanUserResources s u).messages → m.sender ≠ u ∧ m.receiver ≠ u) ∧
    (∀ c, c ∈ s.conversations →
        (∃ p, p ∈ s.participants ∧ p.conv = c ∧ p.user ≠ u) →
        c ∈ (cleanUserResources s u).conversations) ∧
    (∀ c, c ∈ s.conversations →
        (∃ p, p ∈ s.participants ∧ p.conv = c ∧ p.user = u) →
        (∀ p, p ∈ s.participants → p.conv = c → p.user = u) →
        c ∉ (cleanUserResources s u).conversations) := by
  refine ⟨?_, ?_, ?_⟩
  · intro m hm
    rw [cleanUserResources_messages, List.mem_filter, List.mem_filter] at hm
    obtain ⟨⟨hm0, h1⟩, h2⟩ := hm
    rw [Bool.not_eq_true', beq_eq_false_iff_ne] at h1 h2
    exact ⟨h1, h2⟩
  · rintro c hc ⟨p, hp, hpc, hpu⟩
    rw [cleanUserResources_conversations]
    refine List.mem_filter.mpr ⟨hc, ?_⟩
    have hany : ((s.participants.filter fun q => !(q.user == u)).any
        (fun q => q.conv == c)) = true := by
      refine List.any_eq_true.mpr ⟨p, List.mem_filter.mpr ⟨hp, ?_⟩, ?_⟩
      · rw [Bool.not_eq_true', beq_eq_false_iff_ne]
        exact hpu
      · rw [beq_iff_eq]
        exact hpc
    rw [Bool.not_eq_true', hany]
    simp
  · rintro c hc ⟨p, hp, hpc, hpu⟩ hall
    rw [cleanUserResources_conversations]
    intro hmem
    rw [List.mem_filter] at hmem
    obtain ⟨-, hpred⟩ := hmem
    rw [Bool.not_eq_true'] at hpred
    have hcontains : (((s.participants.filter fun q => q.user == u).map
        Participant.conv).contains c) = true := by
      rw [List.elem_iff]
      exact List.mem_map.mpr
        ⟨p, List.mem_filter.mpr ⟨hp, by rw [beq_iff_eq]; exact hpu⟩, hpc⟩
    have hany : ((s.participants.filter fun q => !(q.user == u)).any
        (fun q => q.conv == c)) = false := by
      rw [List.any_eq_false]
      intro q hq
      rw [List.mem_filter] at hq
      obtain ⟨hq0, hq1⟩ := hq
      rw [Bool.not_eq_true', beq_eq_false_iff_ne] at hq1
      intro hqc
      rw [beq_iff_eq] at hqc
      exact hq1 (hall q hq0 hqc)
    rw [hcontains, hany] at hpred
    simp at hpred

/-- A state with conversation 1 held only by user 1 and conversation 2 shared
with user 2, used to witness the cascade rule. -/
def c4CascadeWitnessState : DB :=
  { conversations := [1, 2]
    participants := [{ conv := 1, user := 1, joinedAt := 0, leftAt := none },
                     { conv := 2, user := 1, joinedAt := 0, leftAt := none },
                     { conv := 2, user := 2, joinedAt := 0, leftAt := none }]
    messages := []
    receipts := []
    notifications := []
    histories := [] }

/-- Witness for `c4_cascade_conversation_rule` at a concrete state: deleting
user 1 keeps the shared conversation 2 and deletes the solitary
conversation 1. -/
theorem c4_cascade_conversation_rule_witness :
    2 ∈ (cleanUserResources c4CascadeWitnessState 1).conversations ∧
    1 ∉ (cleanUserResources c4CascadeWitnessState 1).conversations :=
  ⟨(c4_cascade_conversation_rule c4CascadeWitnessState 1).2.1 2 (by decide)
      ⟨{ conv := 2, user := 2, joinedAt := 0, leftAt := none },
        by decide, by decide, by decide⟩,
   (c4_cascade_conversation_rule c4CascadeWitnessState 1).2.2 1 (by decide)
      ⟨{ conv := 1, user := 1, joinedAt := 0, leftAt := none },
        by decide, by decide, by decide⟩
      (by decide)⟩

/-! ### Membership scoping of the mark-read paths (claim C10) -/

/-- Auxiliary: the receipts after the bulk mark-read path, spelled out. -/
theorem markMultipleRead_receipts (s : DB) (ids : List Nat) (u t : Nat) :
    (markMultipleRead s ids u t).1.receipts =
      s.receipts ++
        ((s.messages.filter fun m => ids.contains m.id).filter
            (fun m => !hasReceipt s m.id u)).map
          (fun m => ({ msg := m.id, user := u, readAt := t } : Receipt)) := rfl

/-- **C10 amended** — the bulk mark-read path performs no membership check:
after it runs, every existing message among the requested ids has a receipt
for the user, participant or not; the single `mark_read` action, by contrast,
resolves the message through the participant-scoped queryset, so when the
user has no membership row in any conversation holding the message it fails
with `NotFound` and writes nothing. -/
theorem c10_membership_scoping (s : DB) (ids : List Nat) (u t msgId : Nat) :
    (∀ m, m ∈ s.messages → m.id ∈ ids →
        ∃ r, r ∈ (markMultipleRead s ids u t).1.receipts ∧
          r.msg = m.id ∧ r.user = u) ∧
    ((∀ m, m ∈ s.messages → m.id = msgId →
        ∀ p, p ∈ s.participants → p.conv = m.conv → p.user ≠ u) →
      markReadAction s msgId u t = .error .notFound ∧
      applyResult s (markReadAction s msgId u t) = s) := by
  constructor
  · intro m hm hid
    rw [markMultipleRead_receipts]
    cases hb : hasReceipt s m.id u with
    | true =>
        unfold hasReceipt at hb
        obtain ⟨r, hr, hrp⟩ := List.any_eq_true.mp hb
        rw [Bool.and_eq_true, beq_iff_eq, beq_iff_eq] at hrp
        exact ⟨r, List.mem_append.mpr (Or.inl hr), hrp.1, hrp.2⟩
    | false =>
        refine ⟨{ msg := m.id, user := u, readAt := t }, ?_, rfl, rfl⟩
        refine List.mem_append.mpr (Or.inr (List.mem_map.mpr ⟨m, ?_, rfl⟩))
        refine List.mem_filter.mpr ⟨List.mem_filter.mpr ⟨hm, ?_⟩, ?_⟩
        · rw [List.elem_iff]
          exact hid
        · rw [Bool.not_eq_true']
          exact hb
  · intro hnone
    have hv : messageVisible s msgId u = false := by
      unfold messageVisible
      rw [List.any_eq_false]
      intro m hm hcontra
      rw [Bool.and_eq_true, beq_iff_eq] at hcontra
      obtain ⟨hid, hany⟩ := hcontra
      obtain ⟨p, hp, hpp⟩ := List.any_eq_true.mp hany
      rw [Bool.and_eq_true, beq_iff_eq, beq_iff_eq] at hpp
      exact hnone m hm hid p hp hpp.1 hpp.2
    unfold markReadAction
    rw [hv]
    exact ⟨by simp, by simp [applyResult]⟩

/-- Witness for `c10_membership_scoping` at the `c10State` scenario: the bulk
path writes a receipt for non-participant user 3 while the single path
answers 404. -/
theorem c10_membership_scoping_witness :
    (∃ r, r ∈ (markMultipleRead c10State [40] 3 5).1.receipts ∧
        r.msg = 40 ∧ r.user = 3) ∧
    (markReadAction c10State 40 3 5 = .error .notFound ∧
     applyResult c10State (markReadAction c10State 40 3 5) = c10State) :=
  ⟨(c10_membership_scoping c10State [40] 3 5 40).1
      { id := 40, sender := 2, receiver := 2, conv := 1, content := "m",
        sentAt := 1, editedAt := none, unread := true } (by decide) (by decide),
   (c10_membership_scoping c10State [40] 3 5 40).2 (by decide)⟩

end Messaging
